import Mathlib

/-!
Shallow embedding of the WellFix API job status state machine and the
job endpoints that consume it.

Embedded sources:
* `wellfix_api/models/enums.py` — the `JobStatus` enumeration.
* `wellfix_api/models/user.py` — the `UserRole` enumeration.
* `wellfix_api/core/status_validator.py` — the three role transition
  tables, `is_transition_allowed` and `get_allowed_transitions`.
* `wellfix_api/api/v1/endpoints/jobs.py` — the `update_job_status` and
  `cancel_job` endpoint handlers (their pure decision logic).
* `wellfix_api/crud/crud_job.py` — the `cancel_job` CRUD mutation.
-/

namespace WellFix

/-- `JobStatus` from `wellfix_api/models/enums.py` (lines 11–46): a closed
string-valued enumeration of all states a repair job can be in. -/
inductive JobStatus where
  | PENDING_ASSIGNMENT
  | ASSIGNED
  | PENDING_VISIT
  | PENDING_PICKUP_FOR_LAB
  | IN_TRANSIT_TO_LAB
  | IN_TRANSIT_FROM_LAB
  | ON_SITE_DIAGNOSIS
  | LAB_DIAGNOSIS
  | ESCALATED_TO_LAB
  | PENDING_QUOTE_APPROVAL
  | REPAIR_IN_PROGRESS_LAB
  | REPAIR_IN_PROGRESS_ON_SITE
  | PENDING_RETURN_DELIVERY
  | PENDING_PAYMENT
  | COMPLETED
  | CANCELLED
  deriving DecidableEq, Repr, Fintype

open JobStatus

/-- The string value of each `JobStatus` member (Python `JobStatus` is a
`str` enum whose members equal these strings). -/
def JobStatus.value : JobStatus → String
  | PENDING_ASSIGNMENT => "PENDING_ASSIGNMENT"
  | ASSIGNED => "ASSIGNED"
  | PENDING_VISIT => "PENDING_VISIT"
  | PENDING_PICKUP_FOR_LAB => "PENDING_PICKUP_FOR_LAB"
  | IN_TRANSIT_TO_LAB => "IN_TRANSIT_TO_LAB"
  | IN_TRANSIT_FROM_LAB => "IN_TRANSIT_FROM_LAB"
  | ON_SITE_DIAGNOSIS => "ON_SITE_DIAGNOSIS"
  | LAB_DIAGNOSIS => "LAB_DIAGNOSIS"
  | ESCALATED_TO_LAB => "ESCALATED_TO_LAB"
  | PENDING_QUOTE_APPROVAL => "PENDING_QUOTE_APPROVAL"
  | REPAIR_IN_PROGRESS_LAB => "REPAIR_IN_PROGRESS_LAB"
  | REPAIR_IN_PROGRESS_ON_SITE => "REPAIR_IN_PROGRESS_ON_SITE"
  | PENDING_RETURN_DELIVERY => "PENDING_RETURN_DELIVERY"
  | PENDING_PAYMENT => "PENDING_PAYMENT"
  | COMPLETED => "COMPLETED"
  | CANCELLED => "CANCELLED"

/-- `UserRole` from `wellfix_api/models/user.py` (lines 14–18) is a `str`
enum with members `CUSTOMER`, `ENGINEER`, `ADMIN`.  Because the Python
attribute is string-typed at runtime, the validator can receive a role
value outside the enum; the constructor `UNKNOWN s` stands for any role
string `s` different from the three member values, so that the equality
tests `user_role == UserRole.ADMIN` (etc.) in the source all evaluate to
false on it. -/
inductive UserRole where
  | CUSTOMER
  | ENGINEER
  | ADMIN
  | UNKNOWN (s : String)
  deriving DecidableEq, Repr

open UserRole

/-- `ADMIN_TRANSITIONS` from `wellfix_api/core/status_validator.py`
(lines 16–84), the dict mapping each current status to the set of
statuses an admin may move the job to (sets rendered as lists). -/
def ADMIN_TRANSITIONS : JobStatus → List JobStatus
  | PENDING_ASSIGNMENT => [ASSIGNED, CANCELLED]
  | ASSIGNED => [PENDING_PICKUP_FOR_LAB, PENDING_VISIT, CANCELLED]
  | PENDING_PICKUP_FOR_LAB => [IN_TRANSIT_TO_LAB, CANCELLED, ON_SITE_DIAGNOSIS]
  | IN_TRANSIT_TO_LAB => [LAB_DIAGNOSIS, CANCELLED]
  | PENDING_VISIT => [ON_SITE_DIAGNOSIS, CANCELLED, ESCALATED_TO_LAB]
  | ON_SITE_DIAGNOSIS =>
      [REPAIR_IN_PROGRESS_ON_SITE, PENDING_QUOTE_APPROVAL, CANCELLED, ESCALATED_TO_LAB]
  | LAB_DIAGNOSIS => [REPAIR_IN_PROGRESS_LAB, PENDING_QUOTE_APPROVAL, CANCELLED]
  | ESCALATED_TO_LAB => [PENDING_PICKUP_FOR_LAB, CANCELLED]
  | PENDING_QUOTE_APPROVAL =>
      [REPAIR_IN_PROGRESS_LAB, REPAIR_IN_PROGRESS_ON_SITE, CANCELLED]
  | REPAIR_IN_PROGRESS_LAB => [PENDING_RETURN_DELIVERY, PENDING_PAYMENT, CANCELLED]
  | REPAIR_IN_PROGRESS_ON_SITE => [PENDING_PAYMENT, CANCELLED]
  | PENDING_RETURN_DELIVERY => [IN_TRANSIT_FROM_LAB, CANCELLED]
  | IN_TRANSIT_FROM_LAB => [PENDING_PAYMENT, CANCELLED]
  | PENDING_PAYMENT => [COMPLETED, CANCELLED]
  | COMPLETED => []
  | CANCELLED => []

/-- `ENGINEER_TRANSITIONS` from `wellfix_api/core/status_validator.py`
(lines 87–141). -/
def ENGINEER_TRANSITIONS : JobStatus → List JobStatus
  | PENDING_ASSIGNMENT => []
  | ASSIGNED => [PENDING_PICKUP_FOR_LAB, PENDING_VISIT]
  | PENDING_PICKUP_FOR_LAB => [IN_TRANSIT_TO_LAB, ON_SITE_DIAGNOSIS]
  | IN_TRANSIT_TO_LAB => [LAB_DIAGNOSIS]
  | PENDING_VISIT => [ON_SITE_DIAGNOSIS, ESCALATED_TO_LAB]
  | ON_SITE_DIAGNOSIS =>
      [REPAIR_IN_PROGRESS_ON_SITE, PENDING_QUOTE_APPROVAL, ESCALATED_TO_LAB]
  | LAB_DIAGNOSIS => [REPAIR_IN_PROGRESS_LAB, PENDING_QUOTE_APPROVAL]
  | ESCALATED_TO_LAB => [PENDING_PICKUP_FOR_LAB]
  | PENDING_QUOTE_APPROVAL => []
  | REPAIR_IN_PROGRESS_LAB => [PENDING_RETURN_DELIVERY, PENDING_PAYMENT]
  | REPAIR_IN_PROGRESS_ON_SITE => [PENDING_PAYMENT]
  | PENDING_RETURN_DELIVERY => [IN_TRANSIT_FROM_LAB]
  | IN_TRANSIT_FROM_LAB => [PENDING_PAYMENT]
  | PENDING_PAYMENT => [COMPLETED]
  | COMPLETED => []
  | CANCELLED => []

/-- `CUSTOMER_TRANSITIONS` from `wellfix_api/core/status_validator.py`
(lines 144–176). -/
def CUSTOMER_TRANSITIONS : JobStatus → List JobStatus
  | PENDING_ASSIGNMENT => [CANCELLED]
  | ASSIGNED => [CANCELLED]
  | PENDING_PICKUP_FOR_LAB => [CANCELLED]
  | PENDING_VISIT => [CANCELLED]
  | PENDING_QUOTE_APPROVAL =>
      [REPAIR_IN_PROGRESS_LAB, REPAIR_IN_PROGRESS_ON_SITE, CANCELLED]
  | IN_TRANSIT_TO_LAB => []
  | LAB_DIAGNOSIS => []
  | ON_SITE_DIAGNOSIS => []
  | ESCALATED_TO_LAB => []
  | REPAIR_IN_PROGRESS_LAB => []
  | REPAIR_IN_PROGRESS_ON_SITE => []
  | PENDING_RETURN_DELIVERY => []
  | IN_TRANSIT_FROM_LAB => []
  | PENDING_PAYMENT => []
  | COMPLETED => []
  | CANCELLED => []

/-- `is_transition_allowed` from `wellfix_api/core/status_validator.py`
(lines 179–213): self-transition is allowed unconditionally; otherwise the
role selects a table (unknown roles get none) and the target must be a
member of the allowed-next-set for the current status. -/
def is_transition_allowed
    (current_status : JobStatus) (new_status : JobStatus) (user_role : UserRole) : Bool :=
  if current_status = new_status then
    true
  else
    match user_role with
    | ADMIN => (ADMIN_TRANSITIONS current_status).contains new_status
    | ENGINEER => (ENGINEER_TRANSITIONS current_status).contains new_status
    | CUSTOMER => (CUSTOMER_TRANSITIONS current_status).contains new_status
    | UNKNOWN _ => false

/-- `get_allowed_transitions` from `wellfix_api/core/status_validator.py`
(lines 216–239): the allowed-next-set for the current status under the
role's table, empty for unknown roles. -/
def get_allowed_transitions (current_status : JobStatus) (role : UserRole) : List JobStatus :=
  match role with
  | ADMIN => ADMIN_TRANSITIONS current_status
  | ENGINEER => ENGINEER_TRANSITIONS current_status
  | CUSTOMER => CUSTOMER_TRANSITIONS current_status
  | UNKNOWN _ => []

/-- The string value of each `UserRole` member (Python `UserRole` is a
`str` enum); an `UNKNOWN s` role carries its own string. -/
def UserRole.value : UserRole → String
  | CUSTOMER => "CUSTOMER"
  | ENGINEER => "ENGINEER"
  | ADMIN => "ADMIN"
  | UNKNOWN s => s

/-- The fields of a `RepairJob` row read or written by the status-update
and cancel endpoints (`wellfix_api/models/job.py`): current status, the
assigned engineer, the owning customer, the stored lab-consent flag, and
the cancellation reason. User ids are strings (UUIDs). -/
structure Job where
  status : JobStatus
  engineer_id : Option String
  customer_id : String
  customer_consent_for_lab : Bool
  cancellation_reason : Option String
  deriving DecidableEq, Repr

/-- An HTTP error raised by a handler: the status code and the `detail`
message passed to `HTTPException`. -/
structure ApiError where
  status_code : Nat
  detail : String
  deriving DecidableEq, Repr

/-- The body of a `PATCH /jobs/{id}/status` request
(`JobStatusUpdateCreate`): target status, optional notes, optional
consent flag. -/
structure JobStatusUpdateCreate where
  status : JobStatus
  notes : Option String
  customer_consent_for_lab : Option Bool
  deriving DecidableEq, Repr

/-- The detail string of the transition-table rejection in
`update_job_status` (`jobs.py` line 216). -/
def invalidTransitionDetail (current target : JobStatus) (role : UserRole) : String :=
  "Invalid status transition from " ++ current.value ++ " to " ++ target.value
    ++ " for " ++ role.value

/-- The detail string of the consent rejection in `update_job_status`
(`jobs.py` line 234). -/
def consentRequiredDetail : String :=
  "Customer consent required for lab-related transitions"

/-- `update_job_status` from `wellfix_api/api/v1/endpoints/jobs.py`
(lines 176–247), modelled on a job already fetched from the database
(the 404 branch for a missing job is outside this pure decision logic).
Order of checks in the source: role gate (403), engineer-assignment gate
(403), transition-table check via `is_transition_allowed` (422), consent
flag capture into `extra_updates`, consent precondition for
`IN_TRANSIT_TO_LAB` (422), then the CRUD update applying the new status
and `extra_updates` (`crud_job.update_job_status`, lines 229–295). -/
def update_job_status (role : UserRole) (uid : String) (job : Job)
    (status_update : JobStatusUpdateCreate) : Except ApiError Job :=
  if ¬(role = ENGINEER ∨ role = ADMIN) then
    .error ⟨403, "Only Engineers and Admins can update job status"⟩
  else if role = ENGINEER ∧ job.engineer_id ≠ some uid then
    .error ⟨403, "Engineers can only update status for jobs assigned to them"⟩
  else if ¬ is_transition_allowed job.status status_update.status role then
    .error ⟨422, invalidTransitionDetail job.status status_update.status role⟩
  else
    let job' :=
      match status_update.customer_consent_for_lab with
      | some b =>
          if status_update.status = PENDING_PICKUP_FOR_LAB
              ∨ status_update.status = ESCALATED_TO_LAB then
            { job with customer_consent_for_lab := b }
          else
            job
      | none => job
    if status_update.status ∈ [IN_TRANSIT_TO_LAB] ∧ ¬ job.customer_consent_for_lab then
      .error ⟨422, consentRequiredDetail⟩
    else
      .ok { job' with status := status_update.status }

/-- `cancel_job` from `wellfix_api/api/v1/endpoints/jobs.py`
(lines 428–477) composed with the CRUD mutation
`wellfix_api/crud/crud_job.py` `cancel_job` (lines 419–458), modelled on
a job already fetched from the database.  Order of checks in the source:
customer-ownership gate (403), engineer gate (403), terminal-status gate
(422), then the mutation setting `status := CANCELLED` and the
cancellation reason.  No call to `is_transition_allowed` occurs on this
path. -/
def cancel_job (role : UserRole) (uid : String) (job : Job) (reason : String) :
    Except ApiError Job :=
  if role = CUSTOMER ∧ job.customer_id ≠ uid then
    .error ⟨403, "Customers can only cancel their own jobs"⟩
  else if role = ENGINEER then
    .error ⟨403, "Engineers cannot cancel jobs"⟩
  else if job.status ∈ [COMPLETED, CANCELLED] then
    .error ⟨422, "Cannot cancel job in " ++ job.status.value ++ " status"⟩
  else
    .ok { job with status := CANCELLED, cancellation_reason := some reason }

/-! ## Theorems about the status validator -/

/-- C1: for every role among ADMIN, ENGINEER, CUSTOMER, every current
status, and every target status with target ≠ current, the target is a
member of `get_allowed_transitions current role` if and only if
`is_transition_allowed current target role` returns true. -/
theorem table_enumeration_consistency :
    ∀ r ∈ [UserRole.ADMIN, UserRole.ENGINEER, UserRole.CUSTOMER],
      ∀ c t : JobStatus, t ≠ c →
        (t ∈ get_allowed_transitions c r ↔ is_transition_allowed c t r = true) := by
  decide

theorem table_enumeration_consistency_witness :
    UserRole.ADMIN ∈ [UserRole.ADMIN, UserRole.ENGINEER, UserRole.CUSTOMER]
      ∧ JobStatus.ASSIGNED ≠ JobStatus.PENDING_ASSIGNMENT
      ∧ (JobStatus.ASSIGNED ∈ get_allowed_transitions PENDING_ASSIGNMENT UserRole.ADMIN
          ↔ is_transition_allowed PENDING_ASSIGNMENT ASSIGNED UserRole.ADMIN = true) :=
  ⟨by decide, by decide,
    table_enumeration_consistency UserRole.ADMIN (by decide)
      PENDING_ASSIGNMENT ASSIGNED (by decide)⟩

/-- C2: for every role among ADMIN, ENGINEER, CUSTOMER and every target
status that is neither COMPLETED nor CANCELLED, transitions out of
COMPLETED and out of CANCELLED are denied: the terminal states have no
outgoing transitions in any role's table. -/
theorem terminal_absorption :
    ∀ r ∈ [UserRole.ADMIN, UserRole.ENGINEER, UserRole.CUSTOMER],
      ∀ s2 : JobStatus, s2 ≠ COMPLETED → s2 ≠ CANCELLED →
        is_transition_allowed COMPLETED s2 r = false
          ∧ is_transition_allowed CANCELLED s2 r = false := by
  decide

theorem terminal_absorption_witness :
    UserRole.ADMIN ∈ [UserRole.ADMIN, UserRole.ENGINEER, UserRole.CUSTOMER]
      ∧ JobStatus.PENDING_PAYMENT ≠ JobStatus.COMPLETED
      ∧ JobStatus.PENDING_PAYMENT ≠ JobStatus.CANCELLED
      ∧ is_transition_allowed COMPLETED PENDING_PAYMENT UserRole.ADMIN = false
      ∧ is_transition_allowed CANCELLED PENDING_PAYMENT UserRole.ADMIN = false := by
  refine ⟨by decide, by decide, by decide, ?_⟩
  have h := terminal_absorption UserRole.ADMIN (by decide) PENDING_PAYMENT
    (by decide) (by decide)
  exact h

/-- C3: for every status s and every role value whatsoever — the three
enum members and any unrecognized role string — the self-transition
`is_transition_allowed s s role` returns true. -/
theorem reflexivity :
    ∀ (s : JobStatus) (r : UserRole), is_transition_allowed s s r = true := by
  intro s r
  simp [is_transition_allowed]

/-- C4: for every role value that is not one of ADMIN, ENGINEER,
CUSTOMER (an `UNKNOWN` role string) and every pair of distinct statuses,
`is_transition_allowed` returns false and `get_allowed_transitions`
returns the empty collection. -/
theorem unknown_role_denial :
    ∀ (name : String) (s1 s2 : JobStatus), s1 ≠ s2 →
      is_transition_allowed s1 s2 (UserRole.UNKNOWN name) = false
        ∧ get_allowed_transitions s1 (UserRole.UNKNOWN name) = [] := by
  intro name s1 s2 h
  refine ⟨?_, rfl⟩
  unfold is_transition_allowed
  rw [if_neg h]

theorem unknown_role_denial_witness :
    JobStatus.PENDING_ASSIGNMENT ≠ JobStatus.ASSIGNED
      ∧ is_transition_allowed PENDING_ASSIGNMENT ASSIGNED (UserRole.UNKNOWN "staff") = false
      ∧ get_allowed_transitions PENDING_ASSIGNMENT (UserRole.UNKNOWN "staff") = [] := by
  refine ⟨by decide, ?_⟩
  have h := unknown_role_denial "staff" PENDING_ASSIGNMENT ASSIGNED (by decide)
  exact h

/-- C5: the CUSTOMER transitions, excluding self-transitions, are exactly
cancellation from the five pre-repair-commitment states and quote
approval out of PENDING_QUOTE_APPROVAL into either repair-in-progress
state; every other pair of distinct statuses is denied. -/
theorem customer_transition_characterization :
    ∀ c t : JobStatus, c ≠ t →
      (is_transition_allowed c t UserRole.CUSTOMER = true ↔
        (t = CANCELLED ∧
          (c = PENDING_ASSIGNMENT ∨ c = ASSIGNED ∨ c = PENDING_PICKUP_FOR_LAB
            ∨ c = PENDING_VISIT ∨ c = PENDING_QUOTE_APPROVAL))
        ∨ (c = PENDING_QUOTE_APPROVAL ∧
            (t = REPAIR_IN_PROGRESS_LAB ∨ t = REPAIR_IN_PROGRESS_ON_SITE))) := by
  decide

theorem customer_transition_characterization_witness :
    JobStatus.PENDING_QUOTE_APPROVAL ≠ JobStatus.REPAIR_IN_PROGRESS_LAB
      ∧ (is_transition_allowed PENDING_QUOTE_APPROVAL REPAIR_IN_PROGRESS_LAB
            UserRole.CUSTOMER = true ↔
          (REPAIR_IN_PROGRESS_LAB = CANCELLED ∧
            (PENDING_QUOTE_APPROVAL = PENDING_ASSIGNMENT
              ∨ PENDING_QUOTE_APPROVAL = ASSIGNED
              ∨ PENDING_QUOTE_APPROVAL = PENDING_PICKUP_FOR_LAB
              ∨ PENDING_QUOTE_APPROVAL = PENDING_VISIT
              ∨ PENDING_QUOTE_APPROVAL = PENDING_QUOTE_APPROVAL))
          ∨ (PENDING_QUOTE_APPROVAL = PENDING_QUOTE_APPROVAL ∧
              (REPAIR_IN_PROGRESS_LAB = REPAIR_IN_PROGRESS_LAB
                ∨ REPAIR_IN_PROGRESS_LAB = REPAIR_IN_PROGRESS_ON_SITE))) :=
  ⟨by decide,
    customer_transition_characterization PENDING_QUOTE_APPROVAL
      REPAIR_IN_PROGRESS_LAB (by decide)⟩

/-- C6: engineers can never cancel (CANCELLED is not reachable from any
other status under the ENGINEER table), cannot assign (no transitions
out of PENDING_ASSIGNMENT), and cannot exit PENDING_QUOTE_APPROVAL. -/
theorem engineer_restrictions :
    (∀ s : JobStatus, s ≠ CANCELLED →
        is_transition_allowed s CANCELLED UserRole.ENGINEER = false)
      ∧ get_allowed_transitions PENDING_ASSIGNMENT UserRole.ENGINEER = []
      ∧ get_allowed_transitions PENDING_QUOTE_APPROVAL UserRole.ENGINEER = [] := by
  refine ⟨by decide, rfl, rfl⟩

theorem engineer_restrictions_witness :
    JobStatus.ASSIGNED ≠ JobStatus.CANCELLED
      ∧ is_transition_allowed ASSIGNED CANCELLED UserRole.ENGINEER = false :=
  ⟨by decide, engineer_restrictions.1 ASSIGNED (by decide)⟩

/-- C7: at every status, every target allowed to ENGINEER and every
target allowed to CUSTOMER is also allowed to ADMIN (the admin table is
a pointwise superset), and from every non-terminal status an admin can
reach CANCELLED. -/
theorem admin_superset_and_abort :
    ∀ s t : JobStatus,
      (t ∈ get_allowed_transitions s UserRole.ENGINEER →
          t ∈ get_allowed_transitions s UserRole.ADMIN)
        ∧ (t ∈ get_allowed_transitions s UserRole.CUSTOMER →
            t ∈ get_allowed_transitions s UserRole.ADMIN)
        ∧ (s ≠ COMPLETED → s ≠ CANCELLED →
            CANCELLED ∈ get_allowed_transitions s UserRole.ADMIN) := by
  decide

theorem admin_superset_and_abort_witness :
    JobStatus.PENDING_VISIT ∈ get_allowed_transitions ASSIGNED UserRole.ADMIN
      ∧ JobStatus.CANCELLED ∈ get_allowed_transitions ASSIGNED UserRole.ADMIN :=
  ⟨(admin_superset_and_abort ASSIGNED PENDING_VISIT).1 (by decide),
    (admin_superset_and_abort ASSIGNED PENDING_VISIT).2.2 (by decide) (by decide)⟩

/-! ## Theorems about the endpoint handlers -/

/-- The consent-rejection message differs from every transition-table
rejection message an authorized (engineer or admin) request to move a
job to `IN_TRANSIT_TO_LAB` could have produced. -/
theorem consentDetail_ne_invalidDetail (c : JobStatus) (r : UserRole)
    (h : r = ENGINEER ∨ r = ADMIN) :
    consentRequiredDetail ≠ invalidTransitionDetail c IN_TRANSIT_TO_LAB r := by
  rcases h with h | h <;> subst h <;> cases c <;> decide

/-- C8: a status-update request targeting IN_TRANSIT_TO_LAB from an
authorized engineer or admin is rejected with the 422 consent error
whenever the job's stored `customer_consent_for_lab` is false, even
though the role-transition table allows the transition; and this
rejection message is distinct from the transition-table rejection
message.  The hypotheses record that the earlier checks pass, so the
consent check fires after, and independently of,
`is_transition_allowed`. -/
theorem consent_gate_rejects_in_transit_to_lab
    (role : UserRole) (uid : String) (job : Job)
    (notes : Option String) (consent_flag : Option Bool)
    (hrole : role = ENGINEER ∨ role = ADMIN)
    (hassigned : ¬(role = ENGINEER ∧ job.engineer_id ≠ some uid))
    (hallowed : is_transition_allowed job.status IN_TRANSIT_TO_LAB role = true)
    (hconsent : job.customer_consent_for_lab = false) :
    update_job_status role uid job ⟨IN_TRANSIT_TO_LAB, notes, consent_flag⟩
        = .error ⟨422, consentRequiredDetail⟩
      ∧ consentRequiredDetail
          ≠ invalidTransitionDetail job.status IN_TRANSIT_TO_LAB role := by
  refine ⟨?_, consentDetail_ne_invalidDetail job.status role hrole⟩
  rcases hrole with h | h <;> subst h
  · simp only [not_and, ne_eq, not_not] at hassigned
    simp [update_job_status, hassigned trivial, hallowed, hconsent]
  · simp [update_job_status, hallowed, hconsent]

theorem consent_gate_rejects_witness :
    update_job_status ENGINEER "e1"
        ⟨PENDING_PICKUP_FOR_LAB, some "e1", "c1", false, none⟩
        ⟨IN_TRANSIT_TO_LAB, none, none⟩
        = .error ⟨422, consentRequiredDetail⟩
      ∧ consentRequiredDetail
          ≠ invalidTransitionDetail PENDING_PICKUP_FOR_LAB IN_TRANSIT_TO_LAB ENGINEER :=
  consent_gate_rejects_in_transit_to_lab ENGINEER "e1"
    ⟨PENDING_PICKUP_FOR_LAB, some "e1", "c1", false, none⟩ none none
    (Or.inl rfl) (by simp) (by decide) rfl

/-- C9: the cancel endpoint accepts a cancellation of any job whose
status is neither COMPLETED nor CANCELLED, for the job's own customer
or any admin, and sets the status to CANCELLED regardless of the
current status — no transition-table check is consulted on this path. -/
theorem cancel_job_bypasses_transition_table
    (role : UserRole) (uid : String) (job : Job) (reason : String)
    (hterm1 : job.status ≠ COMPLETED) (hterm2 : job.status ≠ CANCELLED)
    (hauth : (role = CUSTOMER ∧ job.customer_id = uid) ∨ role = ADMIN) :
    cancel_job role uid job reason
      = .ok { job with status := CANCELLED, cancellation_reason := some reason } := by
  rcases hauth with ⟨h1, h2⟩ | h1 <;> subst h1
  · simp [cancel_job, h2, hterm1, hterm2]
  · simp [cancel_job, hterm1, hterm2]

theorem cancel_job_bypasses_witness :
    cancel_job CUSTOMER "c1"
        ⟨REPAIR_IN_PROGRESS_LAB, some "e1", "c1", true, none⟩ "changed my mind"
        = .ok ⟨CANCELLED, some "e1", "c1", true, some "changed my mind"⟩
      ∧ is_transition_allowed REPAIR_IN_PROGRESS_LAB CANCELLED UserRole.CUSTOMER = false :=
  ⟨cancel_job_bypasses_transition_table CUSTOMER "c1"
      ⟨REPAIR_IN_PROGRESS_LAB, some "e1", "c1", true, none⟩ "changed my mind"
      (by decide) (by decide) (Or.inl ⟨rfl, rfl⟩),
    by decide⟩

/-! ## Cardinality of the status enumeration -/

/-- C10 counterexample: `JobStatus` does not have 18 values — the claim
of a closed enumeration of exactly 18 values is false of the code. -/
theorem jobStatus_card_not_eighteen : ¬ (Fintype.card JobStatus = 18) := by
  decide

/-- C10 (amended): `JobStatus` is a closed enumeration of exactly 16
values. -/
theorem jobStatus_card_sixteen : Fintype.card JobStatus = 16 := by
  decide

end WellFix
